import Mathlib

/-!
Verification of the tmdb-backend reporting service (src/app.py) against its
specification.  The Flask request handlers and the MongoDB aggregation
pipelines they build are shallowly embedded as pure Lean functions over an
explicit collection of movie documents.  Store failures (the `except`
branches of the Python handlers) are modelled by a failure oracle that may
make any store operation raise, and each handler returns, besides its HTTP
response, the trace of store operations it executed.
-/

/-! ### JSON values and HTTP responses -/

/-- JSON values, as produced by Flask's jsonify. -/
inductive JVal where
  | jnull
  | jbool (b : Bool)
  | jint (n : Int)
  | jstr (s : String)
  | jarr (xs : List JVal)
  | jobj (fields : List (String × JVal))

/-- An HTTP response: status code plus JSON body. -/
structure Response where
  status : Nat
  body : JVal

/-- Error payload shape used by every handler: {"error": e}. -/
def errBody (e : String) : JVal :=
  .jobj [("error", .jstr e)]

/-- Generic 500 response produced by the handlers' except-branches,
jsonify({"error": str(e)}), 500. -/
def err500 (e : String) : Response :=
  ⟨500, errBody e⟩

/-! ### Data model (collection `movies` of database `tmdb_nosql`) -/

/-- One element of a movie's `genres` array. -/
structure Genre where
  name : String
deriving DecidableEq

/-- One element of a movie's `crew` array. -/
structure CrewMember where
  name : String
  job : String
deriving DecidableEq

/-- A movie document, with the fields the pipelines in app.py consult. -/
structure Movie where
  genres : List Genre
  crew : List CrewMember
  revenue : Int
deriving DecidableEq

/-! ### Store operations -/

/-- Identifies which aggregation pipeline of app.py is being executed,
together with the request-dependent parameters baked into it. -/
inductive PipelineId where
  | topGenres (dir : Int) (lim : Int)
  | topDirectors (dir : Int) (lim : Int)
  | searchGenres (q : String)
  | searchDirectors (q : String)
  | statsGenres
  | statsTopDirector
deriving DecidableEq

/-- Operations the document store supports.  The handlers in app.py only
ever issue `aggregate` and `countDocuments`; the write operations are part
of the store's interface and exist so that the read-only (frame) property
of the handlers is a contentful statement. -/
inductive StoreOp where
  | aggregate (p : PipelineId)
  | countDocuments
  | insertOne (m : Movie)
  | deleteMany
deriving DecidableEq

/-- Effect of a store operation on the collection's contents: aggregation
and counting are reads, the write operations change the collection. -/
def applyOp (c : List Movie) : StoreOp → List Movie
  | .aggregate _ => c
  | .countDocuments => c
  | .insertOne m => c ++ [m]
  | .deleteMany => []

/-- Collection contents after a trace of store operations has run. -/
def applyTrace (c : List Movie) (t : List StoreOp) : List Movie :=
  t.foldl applyOp c

/-- True for the store operations that do not modify the collection. -/
def readQuery : StoreOp → Bool
  | .aggregate _ => true
  | .countDocuments => true
  | .insertOne _ => false
  | .deleteMany => false

/-- Failure oracle: `fail op = some e` means executing `op` against the
store raises an exception whose str() is `e` (e.g. the store became
unreachable).  `runOp` executes one operation under the oracle: an injected
failure wins, otherwise the operation's own (possibly failing) result is
returned. -/
def runOp (fail : StoreOp → Option String) (op : StoreOp)
    (result : Except String α) : Except String α :=
  match fail op with
  | some e => .error e
  | none => result

/-- Oracle under which no store operation fails. -/
def noFail : StoreOp → Option String := fun _ => none

/-! ### Regular-expression matching

Model of the document store's `$regex` operator with option `i`
(case-insensitive), which app.py's search endpoint feeds the raw query
string into.  The store compiles the pattern with a PCRE-style engine and
rejects ill-formed patterns (e.g. an unmatched "(") with an execution
error.  The model supports the fragment exercised here: literal
characters, the "." wildcard, and "(...)" grouping of plain
concatenations; any other metacharacter is out of the modelled fragment
and reported as a compilation error. -/

/-- One compiled pattern token; each token consumes exactly one character. -/
inductive RTok where
  | dot
  | lit (c : Char)
deriving DecidableEq

/-- Characters that the modelled regex fragment does not support. -/
def rUnsupported : List Char :=
  ['*', '+', '?', '[', ']', '\x7b', '\x7d', '|', '^', '$', '\\']

/-- Compiles a pattern, tracking parenthesis depth; groups of plain
concatenations are flattened.  Ill-formed patterns (unbalanced
parentheses) are rejected exactly as the store's engine rejects them. -/
def rcompile : List Char → Nat → Except String (List RTok)
  | [], 0 => .ok []
  | [], _ + 1 => .error "missing closing parenthesis"
  | c :: rest, depth =>
    if c = '(' then
      rcompile rest (depth + 1)
    else if c = ')' then
      match depth with
      | 0 => .error "unmatched closing parenthesis"
      | d + 1 => rcompile rest d
    else if c = '.' then
      (rcompile rest depth).map (RTok.dot :: ·)
    else if c ∈ rUnsupported then
      .error "unsupported pattern feature"
    else
      (rcompile rest depth).map (RTok.lit c :: ·)

/-- Compiles the query string the handler passes as the `$regex` value. -/
def regexCompile (q : String) : Except String (List RTok) :=
  rcompile q.data 0

/-- Matches one token against one subject character, case-insensitively
(the `$options: 'i'` flag). -/
def tokMatch : RTok → Char → Bool
  | .dot, _ => true
  | .lit c, x => c.toLower = x.toLower

/-- Matches the whole token list at the start of the subject. -/
def matchHere : List RTok → List Char → Bool
  | [], _ => true
  | _ :: _, [] => false
  | t :: ts, c :: cs => tokMatch t c && matchHere ts cs

/-- Unanchored search: the pattern may match at any position. -/
def searchFrom (ts : List RTok) : List Char → Bool
  | [] => matchHere ts []
  | c :: cs => matchHere ts (c :: cs) || searchFrom ts cs

/-- Whether the compiled pattern matches somewhere in the string. -/
def regexMatchCI (ts : List RTok) (s : String) : Bool :=
  searchFrom ts s.data

/-! ### Aggregation pipeline stages -/

/-- Rows produced by the `$unwind: '$genres'` stage, projected to the
`genres.name` field the later stages consult. -/
def genreRows (coll : List Movie) : List String :=
  coll.flatMap fun m => m.genres.map Genre.name

/-- Rows produced by the `$unwind: '$crew'` stage: each crew entry paired
with its parent movie's revenue. -/
def crewRows (coll : List Movie) : List (CrewMember × Int) :=
  coll.flatMap fun m => m.crew.map fun c => (c, m.revenue)

/-- Rows kept by the `$match: {'crew.job': 'Director'}` stage. -/
def directorRows (coll : List Movie) : List (CrewMember × Int) :=
  (crewRows coll).filter fun r => r.fst.job == "Director"

/-- The `$group: {_id: '$genres.name', conteo: {'$sum': 1}}` stage. -/
def groupCount (rows : List String) : List (String × Int) :=
  rows.dedup.map fun k => (k, (rows.count k : Int))

/-- The `$group: {_id: '$crew.name', ingresos_totales: {'$sum': '$revenue'}}`
stage. -/
def groupSum (rows : List (CrewMember × Int)) : List (String × Int) :=
  ((rows.map fun r => r.fst.name).dedup).map fun k =>
    (k, ((rows.filter fun r => r.fst.name == k).map Prod.snd).sum)

/-- The `$sort` stage on an integer key: direction -1 sorts descending,
any other direction value ascending. -/
def sortStage (dir : Int) (key : α → Int) (rows : List α) : List α :=
  if dir = -1 then List.insertionSort (fun a b => key b ≤ key a) rows
  else List.insertionSort (fun a b => key a ≤ key b) rows

/-! ### Parameter validation (lines 54-61 and 89-96 of app.py) -/

/-- Effective limit for top_generos: request.args.get('limit', default=10,
type=int) followed by max(1, min(limit, 50)).  `none` models a limit
parameter that is absent or unparsable, for which Flask returns the
default. -/
def topGenresLimit (limitArg : Option Int) : Int :=
  max 1 (min (limitArg.getD 10) 50)

/-- Effective limit for top_directores_ingresos: default 5, clamped by
max(1, min(limit, 30)). -/
def topDirectorsLimit (limitArg : Option Int) : Int :=
  max 1 (min (limitArg.getD 5) 30)

/-- Sort direction: -1 if sort_order == 'desc' else 1 (lines 61 and 96),
applied to the already-defaulted sort_order string. -/
def sortDirection (sort_order : String) : Int :=
  if sort_order = "desc" then -1 else 1

/-! ### Pipeline results -/

/-- Result rows of the top_generos pipeline (unwind, group, sort, limit). -/
def topGenresResult (coll : List Movie) (dir lim : Int) : List (String × Int) :=
  (sortStage dir Prod.snd (groupCount (genreRows coll))).take lim.toNat

/-- Result rows of the top_directores_ingresos pipeline
(unwind, match job Director, group-sum revenue, sort, limit). -/
def topDirectorsResult (coll : List Movie) (dir lim : Int) : List (String × Int) :=
  (sortStage dir Prod.snd (groupSum (directorRows coll))).take lim.toNat

/-- Result of the search endpoint's genre pipeline: unwind genres, match
name against the query as a case-insensitive regex, group-count, sort
descending, limit 10.  Fails when the pattern does not compile. -/
def searchGenresResult (coll : List Movie) (q : String) :
    Except String (List (String × Int)) :=
  match regexCompile q with
  | .error e => .error e
  | .ok ts =>
    .ok ((sortStage (-1) Prod.snd
      (groupCount ((genreRows coll).filter fun s => regexMatchCI ts s))).take 10)

/-- Result of the search endpoint's director pipeline: unwind crew, match
job exactly 'Director' and name against the query regex, group-sum, sort
descending, limit 10. -/
def searchDirectorsResult (coll : List Movie) (q : String) :
    Except String (List (String × Int)) :=
  match regexCompile q with
  | .error e => .error e
  | .ok ts =>
    .ok ((sortStage (-1) Prod.snd
      (groupSum ((crewRows coll).filter fun r =>
        r.fst.job == "Director" && regexMatchCI ts r.fst.name))).take 10)

/-- Result list of the stats endpoint's distinct-genre pipeline: group by
genre name then $count, which emits one document when at least one group
exists and no document at all otherwise. -/
def statsGenresAgg (coll : List Movie) : List Int :=
  if (genreRows coll).dedup.length = 0 then []
  else [((genreRows coll).dedup.length : Int)]

/-! ### Response bodies -/

/-- Rows shaped as [{'nombre': ..., 'conteo': ...}]. -/
def genresBody (rows : List (String × Int)) : JVal :=
  .jarr (rows.map fun r => .jobj [("nombre", .jstr r.fst), ("conteo", .jint r.snd)])

/-- Rows shaped as [{'director': ..., 'ingresos_totales': ...}]. -/
def directorsBody (rows : List (String × Int)) : JVal :=
  .jarr (rows.map fun r =>
    .jobj [("director", .jstr r.fst), ("ingresos_totales", .jint r.snd)])

/-- Extracts the conteo column from a serialized genre report, for stating
ordering properties of the returned rows. -/
def conteosOf : JVal → List Int
  | .jarr xs =>
    xs.filterMap fun x =>
      match x with
      | .jobj [("nombre", _), ("conteo", .jint n)] => some n
      | _ => none
  | _ => []

/-- Extracts the ingresos_totales column from a serialized director
report. -/
def ingresosOf : JVal → List Int
  | .jarr xs =>
    xs.filterMap fun x =>
      match x with
      | .jobj [("director", _), ("ingresos_totales", .jint n)] => some n
      | _ => none
  | _ => []

/-! ### Request handlers -/

/-- Handler of GET / (lines 39-41): a static payload, built without
consulting the store at all. -/
def index (_fail : StoreOp → Option String) (_coll : List Movie) :
    Response × List StoreOp :=
  (⟨200, .jobj [("status", .jstr "API corriendo"), ("db_conectada", .jbool true)]⟩, [])

/-- Store operation issued by get_top_genres for given request arguments. -/
def topGenresOp (limitArg : Option Int) (sortArg : Option String) : StoreOp :=
  .aggregate (.topGenres (sortDirection (sortArg.getD "desc")) (topGenresLimit limitArg))

/-- Handler of GET /api/reportes/top_generos (lines 44-76). -/
def get_top_genres (fail : StoreOp → Option String) (coll : List Movie)
    (limitArg : Option Int) (sortArg : Option String) : Response × List StoreOp :=
  let limit := topGenresLimit limitArg
  let sort_direction := sortDirection (sortArg.getD "desc")
  let op := topGenresOp limitArg sortArg
  match runOp fail op (.ok (topGenresResult coll sort_direction limit)) with
  | .error e => (err500 e, [op])
  | .ok rows => (⟨200, genresBody rows⟩, [op])

/-- Store operation issued by get_top_directors_revenue. -/
def topDirectorsOp (limitArg : Option Int) (sortArg : Option String) : StoreOp :=
  .aggregate (.topDirectors (sortDirection (sortArg.getD "desc")) (topDirectorsLimit limitArg))

/-- Handler of GET /api/reportes/top_directores_ingresos (lines 79-118). -/
def get_top_directors_revenue (fail : StoreOp → Option String) (coll : List Movie)
    (limitArg : Option Int) (sortArg : Option String) : Response × List StoreOp :=
  let limit := topDirectorsLimit limitArg
  let sort_direction := sortDirection (sortArg.getD "desc")
  let op := topDirectorsOp limitArg sortArg
  match runOp fail op (.ok (topDirectorsResult coll sort_direction limit)) with
  | .error e => (err500 e, [op])
  | .ok rows => (⟨200, directorsBody rows⟩, [op])

/-- Handler of GET /api/reportes/search (lines 121-168).  `qArg = none`
models an absent q parameter, for which Flask substitutes the default ''. -/
def search (fail : StoreOp → Option String) (coll : List Movie)
    (qArg : Option String) : Response × List StoreOp :=
  let query := qArg.getD ""
  if query = "" then
    (⟨400, errBody "Parámetro 'q' requerido"⟩, [])
  else
    let op1 := StoreOp.aggregate (.searchGenres query)
    match runOp fail op1 (searchGenresResult coll query) with
    | .error e => (err500 e, [op1])
    | .ok genres =>
      let op2 := StoreOp.aggregate (.searchDirectors query)
      match runOp fail op2 (searchDirectorsResult coll query) with
      | .error e => (err500 e, [op1, op2])
      | .ok directors =>
        (⟨200, .jobj [("genres", genresBody genres),
                      ("directors", directorsBody directors)]⟩,
         [op1, op2])

/-- Handler of GET /api/reportes/stats (lines 171-208). -/
def get_stats (fail : StoreOp → Option String) (coll : List Movie) :
    Response × List StoreOp :=
  match runOp fail .countDocuments (.ok (coll.length : Int)) with
  | .error e => (err500 e, [.countDocuments])
  | .ok total_movies =>
    match runOp fail (.aggregate .statsGenres) (.ok (statsGenresAgg coll)) with
    | .error e => (err500 e, [.countDocuments, .aggregate .statsGenres])
    | .ok genre_result =>
      let total_genres : Int := match genre_result with | [] => 0 | t :: _ => t
      match runOp fail (.aggregate .statsTopDirector)
          (.ok (topDirectorsResult coll (-1) 1)) with
      | .error e =>
        (err500 e,
         [.countDocuments, .aggregate .statsGenres, .aggregate .statsTopDirector])
      | .ok top_director =>
        (⟨200, .jobj [("total_movies", .jint total_movies),
                      ("total_genres", .jint total_genres),
                      ("top_director",
                        match top_director with
                        | [] => .jnull
                        | r :: _ =>
                          .jobj [("_id", .jstr r.fst),
                                 ("ingresos_totales", .jint r.snd)])]⟩,
         [.countDocuments, .aggregate .statsGenres, .aggregate .statsTopDirector])

/-! ### Ordering predicates and sorting lemmas -/

instance (key : α → Int) : IsTotal α fun a b => key a ≤ key b :=
  ⟨fun a b => Int.le_total (key a) (key b)⟩

instance (key : α → Int) : IsTrans α fun a b => key a ≤ key b :=
  ⟨fun _ _ _ h h2 => le_trans h h2⟩

instance (key : α → Int) : IsTotal α fun a b => key b ≤ key a :=
  ⟨fun a b => Int.le_total (key b) (key a)⟩

instance (key : α → Int) : IsTrans α fun a b => key b ≤ key a :=
  ⟨fun _ _ _ h h2 => le_trans h2 h⟩

/-- Checks that every adjacent pair of the list satisfies `le`. -/
def pairsHold (le : Int → Int → Bool) : List Int → Bool
  | [] => true
  | [_] => true
  | a :: b :: r => le a b && pairsHold le (b :: r)

/-- A non-increasing sequence of integers. -/
def nonIncreasing (l : List Int) : Prop :=
  pairsHold (fun a b => decide (b ≤ a)) l = true

/-- A non-decreasing sequence of integers. -/
def nonDecreasing (l : List Int) : Prop :=
  pairsHold (fun a b => decide (a ≤ b)) l = true

instance (l : List Int) : Decidable (nonIncreasing l) :=
  inferInstanceAs (Decidable (pairsHold (fun a b => decide (b ≤ a)) l = true))

instance (l : List Int) : Decidable (nonDecreasing l) :=
  inferInstanceAs (Decidable (pairsHold (fun a b => decide (a ≤ b)) l = true))

theorem pairsHold_map_of_pairwise (le : Int → Int → Bool) (key : α → Int)
    (P : α → α → Prop) (hle : ∀ a b, P a b → le (key a) (key b) = true) :
    ∀ l : List α, l.Pairwise P → pairsHold le (l.map key) = true
  | [] => fun _ => rfl
  | [_] => fun _ => rfl
  | a :: b :: r => fun h => by
    rcases List.pairwise_cons.mp h with ⟨h1, h2⟩
    have hr := pairsHold_map_of_pairwise le key P hle (b :: r) h2
    simp only [List.map_cons] at hr ⊢
    simp only [pairsHold, Bool.and_eq_true]
    exact ⟨hle a b (h1 b (List.mem_cons_self b r)), hr⟩

theorem sortStage_take_nonIncreasing (key : α → Int) (rows : List α) (n : Nat) :
    nonIncreasing (((sortStage (-1) key rows).take n).map key) := by
  have hp : (sortStage (-1) key rows).Pairwise fun a b => key b ≤ key a := by
    simp only [sortStage, if_pos rfl]
    exact List.sorted_insertionSort _ rows
  have hp2 : ((sortStage (-1) key rows).take n).Pairwise fun a b => key b ≤ key a :=
    hp.sublist (List.take_sublist n _)
  exact pairsHold_map_of_pairwise (fun a b => decide (b ≤ a)) key
    (fun a b => key b ≤ key a) (fun a b h => decide_eq_true h) _ hp2

theorem sortStage_take_nonDecreasing (key : α → Int) (rows : List α) (n : Nat)
    {dir : Int} (h : dir ≠ -1) :
    nonDecreasing (((sortStage dir key rows).take n).map key) := by
  have hp : (sortStage dir key rows).Pairwise fun a b => key a ≤ key b := by
    simp only [sortStage, if_neg h]
    exact List.sorted_insertionSort _ rows
  have hp2 : ((sortStage dir key rows).take n).Pairwise fun a b => key a ≤ key b :=
    hp.sublist (List.take_sublist n _)
  exact pairsHold_map_of_pairwise (fun a b => decide (a ≤ b)) key
    (fun a b => key a ≤ key b) (fun a b h => decide_eq_true h) _ hp2

theorem topGenresResult_nonInc (coll : List Movie) (lim : Int) :
    nonIncreasing ((topGenresResult coll (-1) lim).map Prod.snd) :=
  sortStage_take_nonIncreasing _ _ _

theorem topGenresResult_nonDec (coll : List Movie) (lim : Int) {dir : Int} (h : dir ≠ -1) :
    nonDecreasing ((topGenresResult coll dir lim).map Prod.snd) :=
  sortStage_take_nonDecreasing _ _ _ h

theorem topDirectorsResult_nonInc (coll : List Movie) (lim : Int) :
    nonIncreasing ((topDirectorsResult coll (-1) lim).map Prod.snd) :=
  sortStage_take_nonIncreasing _ _ _

theorem topDirectorsResult_nonDec (coll : List Movie) (lim : Int) {dir : Int} (h : dir ≠ -1) :
    nonDecreasing ((topDirectorsResult coll dir lim).map Prod.snd) :=
  sortStage_take_nonDecreasing _ _ _ h

/-! ### Evaluation of the report handlers under a healthy store -/

theorem get_top_genres_ok (coll : List Movie) (limitArg : Option Int)
    (sortArg : Option String) :
    get_top_genres noFail coll limitArg sortArg =
      (⟨200, genresBody (topGenresResult coll (sortDirection (sortArg.getD "desc"))
        (topGenresLimit limitArg))⟩,
       [topGenresOp limitArg sortArg]) := rfl

theorem get_top_directors_ok (coll : List Movie) (limitArg : Option Int)
    (sortArg : Option String) :
    get_top_directors_revenue noFail coll limitArg sortArg =
      (⟨200, directorsBody (topDirectorsResult coll (sortDirection (sortArg.getD "desc"))
        (topDirectorsLimit limitArg))⟩,
       [topDirectorsOp limitArg sortArg]) := rfl

theorem conteosOf_genresBody :
    ∀ rows : List (String × Int), conteosOf (genresBody rows) = rows.map Prod.snd
  | [] => rfl
  | r :: t => by
    show r.snd :: conteosOf (genresBody t) = r.snd :: t.map Prod.snd
    rw [conteosOf_genresBody t]

theorem ingresosOf_directorsBody :
    ∀ rows : List (String × Int), ingresosOf (directorsBody rows) = rows.map Prod.snd
  | [] => rfl
  | r :: t => by
    show r.snd :: ingresosOf (directorsBody t) = r.snd :: t.map Prod.snd
    rw [ingresosOf_directorsBody t]

theorem genres_conteos_eval (coll : List Movie) (limitArg : Option Int)
    (sortArg : Option String) :
    conteosOf (get_top_genres noFail coll limitArg sortArg).fst.body =
      (topGenresResult coll (sortDirection (sortArg.getD "desc"))
        (topGenresLimit limitArg)).map Prod.snd := by
  rw [get_top_genres_ok]
  exact conteosOf_genresBody _

theorem directors_ingresos_eval (coll : List Movie) (limitArg : Option Int)
    (sortArg : Option String) :
    ingresosOf (get_top_directors_revenue noFail coll limitArg sortArg).fst.body =
      (topDirectorsResult coll (sortDirection (sortArg.getD "desc"))
        (topDirectorsLimit limitArg)).map Prod.snd := by
  rw [get_top_directors_ok]
  exact ingresosOf_directorsBody _

/-! ### Demo collection used in counterexamples -/

/-- Three movies: genre A once and genre B twice, so the genre report has
a strictly increasing and a strictly decreasing ordering to distinguish. -/
def demoGenres : List Movie :=
  [⟨[⟨"A"⟩], [], 0⟩, ⟨[⟨"B"⟩], [], 0⟩, ⟨[⟨"B"⟩], [], 0⟩]

/-- C1 counterexample: a garbage sort value such as "xyz" is mapped by
line 61 of app.py to ascending order, so the returned counts [1, 2] are
non-decreasing, not non-increasing as the claim requires. -/
theorem sort_garbage_not_descending :
    conteosOf (get_top_genres noFail demoGenres none (some "xyz")).fst.body = [1, 2]
  ∧ ¬ nonIncreasing [1, 2] := by decide

/-- C1 (amended): sort=asc yields a non-decreasing sequence of the sorted
field for both report endpoints; an omitted sort parameter or sort=desc
yields a non-increasing sequence; any other supplied value (e.g. "xyz")
also yields a non-decreasing (ascending) sequence. -/
theorem sort_param_ordering :
    ∀ (coll : List Movie) (limitArg : Option Int) (sortArg : Option String),
    (sortArg = some "asc" →
      nonDecreasing (conteosOf (get_top_genres noFail coll limitArg sortArg).fst.body) ∧
      nonDecreasing (ingresosOf
        (get_top_directors_revenue noFail coll limitArg sortArg).fst.body))
  ∧ ((sortArg = none ∨ sortArg = some "desc") →
      nonIncreasing (conteosOf (get_top_genres noFail coll limitArg sortArg).fst.body) ∧
      nonIncreasing (ingresosOf
        (get_top_directors_revenue noFail coll limitArg sortArg).fst.body))
  ∧ (∀ s, sortArg = some s → s ≠ "desc" →
      nonDecreasing (conteosOf (get_top_genres noFail coll limitArg sortArg).fst.body) ∧
      nonDecreasing (ingresosOf
        (get_top_directors_revenue noFail coll limitArg sortArg).fst.body)) := by
  intro coll limitArg sortArg
  refine ⟨?_, ?_, ?_⟩
  · intro h
    subst h
    rw [genres_conteos_eval, directors_ingresos_eval]
    exact ⟨topGenresResult_nonDec _ _ (by decide), topDirectorsResult_nonDec _ _ (by decide)⟩
  · intro h
    rcases h with h | h <;> subst h <;> rw [genres_conteos_eval, directors_ingresos_eval] <;>
      exact ⟨topGenresResult_nonInc _ _, topDirectorsResult_nonInc _ _⟩
  · intro s hs hne
    subst hs
    rw [genres_conteos_eval, directors_ingresos_eval]
    have hdir : sortDirection ((some s).getD "desc") ≠ -1 := by
      simp only [Option.getD_some, sortDirection, if_neg hne]
      decide
    exact ⟨topGenresResult_nonDec _ _ hdir, topDirectorsResult_nonDec _ _ hdir⟩

/-- Witness for sort_param_ordering at concrete inputs. -/
theorem sort_param_ordering_witness :
    nonDecreasing (conteosOf (get_top_genres noFail demoGenres none (some "asc")).fst.body)
  ∧ nonIncreasing (conteosOf (get_top_genres noFail demoGenres none none).fst.body)
  ∧ nonDecreasing (conteosOf (get_top_genres noFail demoGenres none (some "xyz")).fst.body) :=
  ⟨((sort_param_ordering demoGenres none (some "asc")).1 rfl).1,
   ((sort_param_ordering demoGenres none none).2.1 (Or.inl rfl)).1,
   (((sort_param_ordering demoGenres none (some "xyz")).2.2) "xyz" rfl (by decide)).1⟩

/-- C2 counterexample: an absent sort parameter is defaulted by Flask to
the string 'desc' (line 55), which line 61 maps to the descending
direction -1, not to ascending as the claim states; accordingly the genre
report with sort absent comes back descending. -/
theorem sort_absent_maps_descending :
    sortDirection ((none : Option String).getD "desc") = -1
  ∧ sortDirection ((none : Option String).getD "desc") ≠ 1
  ∧ conteosOf (get_top_genres noFail demoGenres none none).fst.body = [2, 1]
  ∧ ¬ nonDecreasing [2, 1] := by decide

/-- C2 (amended): the exact string 'desc' and an absent sort parameter map
to the descending direction; any other supplied value (including 'asc' or
any invalid string) maps to ascending. -/
theorem sort_direction_mapping :
    ∀ sortArg : Option String,
    ((sortArg = none ∨ sortArg = some "desc") →
      sortDirection (sortArg.getD "desc") = -1)
  ∧ (∀ s, sortArg = some s → s ≠ "desc" → sortDirection (sortArg.getD "desc") = 1) := by
  intro sortArg
  constructor
  · intro h
    rcases h with h | h <;> subst h <;> rfl
  · intro s hs hne
    subst hs
    simp only [Option.getD_some, sortDirection, if_neg hne]

/-- Witness for sort_direction_mapping at concrete inputs. -/
theorem sort_direction_mapping_witness :
    sortDirection ((none : Option String).getD "desc") = -1
  ∧ sortDirection ((some "asc").getD "desc") = 1 :=
  ⟨(sort_direction_mapping none).1 (Or.inl rfl),
   (sort_direction_mapping (some "asc")).2 "asc" rfl (by decide)⟩

/-- C3: the effective limit is the clamp of the supplied integer into
[1,50] for top_generos and [1,30] for top_directores_ingresos: values
above the bound become the bound, values below 1 become 1, in-range
values pass through, and an absent or unparsable limit takes the default
(10 respectively 5). -/
theorem limit_clamping :
    ∀ l : Int,
    (50 < l → topGenresLimit (some l) = 50)
  ∧ (l < 1 → topGenresLimit (some l) = 1)
  ∧ (1 ≤ l → l ≤ 50 → topGenresLimit (some l) = l)
  ∧ (30 < l → topDirectorsLimit (some l) = 30)
  ∧ (l < 1 → topDirectorsLimit (some l) = 1)
  ∧ (1 ≤ l → l ≤ 30 → topDirectorsLimit (some l) = l)
  ∧ topGenresLimit none = 10
  ∧ topDirectorsLimit none = 5 := by
  intro l
  refine ⟨?_, ?_, ?_, ?_, ?_, ?_, rfl, rfl⟩ <;>
    · intros
      simp only [topGenresLimit, topDirectorsLimit, Option.getD_some]
      omega

/-- Witness for limit_clamping at concrete inputs. -/
theorem limit_clamping_witness :
    topGenresLimit (some 999) = 50
  ∧ topDirectorsLimit (some (-3)) = 1
  ∧ topGenresLimit (some 7) = 7 :=
  ⟨(limit_clamping 999).1 (by decide),
   (limit_clamping (-3)).2.2.2.2.1 (by decide),
   (limit_clamping 7).2.2.1 (by decide) (by decide)⟩

/-! ### Search endpoint validation and query traces -/

/-- C4 counterexample: for the non-empty query "(" (an invalid regex) the
genre aggregation raises at the store, the handler's except-branch takes
over, and the director search is never executed — so it is not true that
every non-empty q executes both searches. -/
theorem search_invalid_regex_single_query :
    (search noFail [] (some "(")).snd = [.aggregate (.searchGenres "(")]
  ∧ StoreOp.aggregate (.searchDirectors "(") ∉ (search noFail [] (some "(")).snd := by
  decide

/-- C4 (amended): a request with q missing or empty is answered 400 with
body {"error": "Parámetro 'q' requerido"} and no store query is executed;
for a non-empty q whose pattern compiles (and absent store failures) both
the genre search and the director search are executed, in that order.  A
non-empty q with an invalid pattern executes only the genre search, whose
error becomes the generic 500 response. -/
theorem search_q_validation :
    ∀ (fail : StoreOp → Option String) (coll : List Movie) (qArg : Option String),
    (qArg.getD "" = "" →
      search fail coll qArg = (⟨400, errBody "Parámetro 'q' requerido"⟩, []))
  ∧ (∀ q, qArg = some q → q ≠ "" → (regexCompile q).isOk = true →
      (search noFail coll qArg).snd =
        [.aggregate (.searchGenres q), .aggregate (.searchDirectors q)]) := by
  intro fail coll qArg
  constructor
  · intro h
    simp [search, h]
  · intro q hq hne hok
    subst hq
    cases hcompile : regexCompile q with
    | error e =>
      rw [hcompile] at hok
      exact Bool.noConfusion hok
    | ok ts =>
      simp only [search, Option.getD_some, if_neg hne, runOp, noFail,
        searchGenresResult, searchDirectorsResult, hcompile]

/-- Witness for search_q_validation at concrete inputs. -/
theorem search_q_validation_witness :
    search noFail [] none = (⟨400, errBody "Parámetro 'q' requerido"⟩, [])
  ∧ (search noFail [] (some "a")).snd =
      [.aggregate (.searchGenres "a"), .aggregate (.searchDirectors "a")] :=
  ⟨(search_q_validation noFail [] none).1 rfl,
   (search_q_validation noFail [] (some "a")).2 "a" rfl (by decide) (by decide)⟩

/-! ### Index and stats endpoints -/

/-- C6 counterexample: the static payload the index handler actually
returns is {"status": "API corriendo", "db_conectada": true}, which is not
the payload the claim names ({"status": "API running", "db_connected":
true}). -/
theorem index_payload_differs :
    (index noFail []).fst.body ≠
      JVal.jobj [("status", .jstr "API running"), ("db_connected", .jbool true)] := by
  simp [index]

/-- C6 (amended): a request to the index endpoint always returns status
200 with the static payload {"status": "API corriendo", "db_conectada":
true}, unconditionally and independently of the document store's actual
state or of any store failures. -/
theorem index_static_response :
    ∀ (fail : StoreOp → Option String) (coll : List Movie),
      index fail coll =
        (⟨200, .jobj [("status", .jstr "API corriendo"), ("db_conectada", .jbool true)]⟩,
         ([] : List StoreOp)) :=
  fun _ _ => rfl

/-- C7: the stats endpoint on an empty collection returns status 200 with
exactly {"total_movies": 0, "total_genres": 0, "top_director": null}. -/
theorem stats_empty_collection :
    get_stats noFail [] =
      (⟨200, .jobj [("total_movies", .jint 0), ("total_genres", .jint 0),
                    ("top_director", .jnull)]⟩,
       [.countDocuments, .aggregate .statsGenres, .aggregate .statsTopDirector]) := rfl

/-! ### Director revenue aggregation (C5) -/

/-- Revenue total a grouping stage assigns to one director name: the sum
of the revenue column over the matched rows carrying that name. -/
def sumFor (rows : List (CrewMember × Int)) (name : String) : Int :=
  ((rows.filter fun r => r.fst.name == name).map Prod.snd).sum

/-- Follows the spec's words for the director report: keep only crew
entries whose job equals exactly "Director", and credit the director once
per such entry with the parent movie's full revenue — so each movie
contributes (number of matching credits) times its revenue to the name's
total. -/
def specDirectorTotal (coll : List Movie) (name : String) : Int :=
  (coll.map fun m =>
    ((m.crew.filter fun c => c.name == name && c.job == "Director").length : Int)
      * m.revenue).sum

theorem sum_map_const_int (l : List α) (r : Int) :
    (l.map fun _ => r).sum = (l.length : Int) * r := by
  induction l with
  | nil => simp
  | cons a t ih =>
    simp [ih]
    ring

theorem sumFor_append (a b : List (CrewMember × Int)) (name : String) :
    sumFor (a ++ b) name = sumFor a name + sumFor b name := by
  simp [sumFor, List.filter_append]

theorem directorRows_cons (m : Movie) (t : List Movie) :
    directorRows (m :: t) =
      ((m.crew.filter fun c => c.job == "Director").map fun c => (c, m.revenue))
        ++ directorRows t := by
  simp only [directorRows, crewRows, List.flatMap_cons, List.filter_append]
  congr 1
  rw [List.filter_map]
  rfl

theorem movie_contribution (m : Movie) (name : String) :
    sumFor ((m.crew.filter fun c => c.job == "Director").map fun c => (c, m.revenue))
        name =
      ((m.crew.filter fun c => c.name == name && c.job == "Director").length : Int)
        * m.revenue := by
  simp only [sumFor]
  rw [List.filter_map, List.map_map, List.filter_filter]
  exact sum_map_const_int _ _

theorem sumFor_directorRows (coll : List Movie) (name : String) :
    sumFor (directorRows coll) name = specDirectorTotal coll name := by
  induction coll with
  | nil => rfl
  | cons m t ih =>
    rw [directorRows_cons, sumFor_append, movie_contribution, ih]
    simp [specDirectorTotal]

/-- One movie with a duplicated directing credit for A, a co-director B
and a lowercase-job entry for C, to exhibit exact matching and per-credit
counting. -/
def demoDirectors : List Movie :=
  [⟨[], [⟨"A", "Director"⟩, ⟨"A", "Director"⟩, ⟨"B", "Co-Director"⟩, ⟨"C", "director"⟩], 100⟩]

/-- C5: the director pipeline keeps exactly the crew rows whose job equals
the string "Director" (case-sensitively, so "director" and "Co-Director"
rows are dropped), and the grouping stage assigns every director name the
sum of the parent movie's full revenue over all its kept credits — a
duplicated credit on one movie counts that movie's revenue once per
credit, as the concrete run on demoDirectors (total 200 from one movie
with revenue 100) shows. -/
theorem director_revenue_grouping :
    ∀ (coll : List Movie) (name : String),
    (∀ r, r ∈ directorRows coll → r.fst.job = "Director")
  ∧ sumFor (directorRows coll) name = specDirectorTotal coll name
  ∧ groupSum (directorRows coll) =
      ((directorRows coll).map fun r => r.fst.name).dedup.map
        (fun k => (k, specDirectorTotal coll k))
  ∧ topDirectorsResult demoDirectors (-1) 5 = [("A", 200)] := by
  intro coll name
  refine ⟨?_, sumFor_directorRows coll name, ?_, by decide⟩
  · intro r hr
    exact eq_of_beq (List.mem_filter.mp hr).2
  · show ((directorRows coll).map fun r => r.fst.name).dedup.map
      (fun k => (k, sumFor (directorRows coll) k)) = _
    exact List.map_congr_left fun k _ => by rw [sumFor_directorRows]

/-- Witness for director_revenue_grouping at concrete inputs. -/
theorem director_revenue_grouping_witness :
    (⟨⟨"A", "Director"⟩, (100 : Int)⟩ : CrewMember × Int).fst.job = "Director"
  ∧ sumFor (directorRows demoDirectors) "A" = specDirectorTotal demoDirectors "A" :=
  ⟨(director_revenue_grouping demoDirectors "A").1 ⟨⟨"A", "Director"⟩, 100⟩ (by decide),
   (director_revenue_grouping demoDirectors "A").2.1⟩

/-! ### Exception conversion at the handler boundary (C8) -/

/-- First failure an execution of the stats handler encounters, if any;
its store operations run in the order document count, distinct-genre
aggregate, top-director aggregate. -/
def statsFirstFail (fail : StoreOp → Option String) : Option String :=
  match fail .countDocuments with
  | some e => some e
  | none =>
    match fail (.aggregate .statsGenres) with
    | some e => some e
    | none => fail (.aggregate .statsTopDirector)

/-- First failure the search handler encounters for a non-empty query:
the genre aggregate (an injected failure, or the pattern failing to
compile), then the director aggregate. -/
def searchFirstFail (fail : StoreOp → Option String) (coll : List Movie)
    (q : String) : Option String :=
  match fail (.aggregate (.searchGenres q)) with
  | some e => some e
  | none =>
    match searchGenresResult coll q with
    | .error e => some e
    | .ok _ => fail (.aggregate (.searchDirectors q))

theorem searchResults_ok (coll : List Movie) (q : String)
    (rows : List (String × Int)) (hg : searchGenresResult coll q = .ok rows) :
    ∃ rows2, searchDirectorsResult coll q = .ok rows2 := by
  cases hc : regexCompile q with
  | error e => simp [searchGenresResult, hc] at hg
  | ok ts =>
    exact ⟨(sortStage (-1) Prod.snd
      (groupSum ((crewRows coll).filter fun r =>
        r.fst.job == "Director" && regexMatchCI ts r.fst.name))).take 10,
      by simp only [searchDirectorsResult, hc]⟩

theorem genres_error_conversion (fail : StoreOp → Option String) (coll : List Movie)
    (limitArg : Option Int) (sortArg : Option String) :
    (∀ e, fail (topGenresOp limitArg sortArg) = some e →
      get_top_genres fail coll limitArg sortArg =
        (err500 e, [topGenresOp limitArg sortArg]))
  ∧ (fail (topGenresOp limitArg sortArg) = none →
      (get_top_genres fail coll limitArg sortArg).fst.status = 200) := by
  constructor
  · intro e he
    simp only [get_top_genres, runOp, he]
  · intro hn
    simp only [get_top_genres, runOp, hn]

theorem directors_error_conversion (fail : StoreOp → Option String) (coll : List Movie)
    (limitArg : Option Int) (sortArg : Option String) :
    (∀ e, fail (topDirectorsOp limitArg sortArg) = some e →
      get_top_directors_revenue fail coll limitArg sortArg =
        (err500 e, [topDirectorsOp limitArg sortArg]))
  ∧ (fail (topDirectorsOp limitArg sortArg) = none →
      (get_top_directors_revenue fail coll limitArg sortArg).fst.status = 200) := by
  constructor
  · intro e he
    simp only [get_top_directors_revenue, runOp, he]
  · intro hn
    simp only [get_top_directors_revenue, runOp, hn]

theorem search_error_conversion (fail : StoreOp → Option String) (coll : List Movie)
    (q : String) (hq : q ≠ "") :
    (∀ e, searchFirstFail fail coll q = some e →
      (search fail coll (some q)).fst = err500 e)
  ∧ (searchFirstFail fail coll q = none →
      (search fail coll (some q)).fst.status = 200) := by
  constructor
  · intro e he
    cases h1 : fail (.aggregate (.searchGenres q)) with
    | some e1 =>
      simp only [searchFirstFail, h1] at he
      obtain rfl := Option.some.inj he
      simp only [search, Option.getD_some, if_neg hq, runOp, h1]
    | none =>
      cases hg : searchGenresResult coll q with
      | error e2 =>
        simp only [searchFirstFail, h1, hg] at he
        obtain rfl := Option.some.inj he
        simp only [search, Option.getD_some, if_neg hq, runOp, h1, hg]
      | ok rows =>
        cases h3 : fail (.aggregate (.searchDirectors q)) with
        | some e3 =>
          simp only [searchFirstFail, h1, hg, h3] at he
          obtain rfl := Option.some.inj he
          simp only [search, Option.getD_some, if_neg hq, runOp, h1, hg, h3]
        | none =>
          simp only [searchFirstFail, h1, hg, h3] at he
          exact Option.noConfusion he
  · intro hn
    cases h1 : fail (.aggregate (.searchGenres q)) with
    | some e1 =>
      simp only [searchFirstFail, h1] at hn
      exact Option.noConfusion hn
    | none =>
      cases hg : searchGenresResult coll q with
      | error e2 =>
        simp only [searchFirstFail, h1, hg] at hn
        exact Option.noConfusion hn
      | ok rows =>
        cases h3 : fail (.aggregate (.searchDirectors q)) with
        | some e3 =>
          simp only [searchFirstFail, h1, hg, h3] at hn
          exact Option.noConfusion hn
        | none =>
          obtain ⟨rows2, hd⟩ := searchResults_ok coll q rows hg
          simp only [search, Option.getD_some, if_neg hq, runOp, h1, hg, h3, hd]

theorem stats_error_conversion (fail : StoreOp → Option String) (coll : List Movie) :
    (∀ e, statsFirstFail fail = some e → (get_stats fail coll).fst = err500 e)
  ∧ (statsFirstFail fail = none → (get_stats fail coll).fst.status = 200) := by
  constructor
  · intro e he
    cases h1 : fail .countDocuments with
    | some e1 =>
      simp only [statsFirstFail, h1] at he
      obtain rfl := Option.some.inj he
      simp only [get_stats, runOp, h1]
    | none =>
      cases h2 : fail (.aggregate .statsGenres) with
      | some e2 =>
        simp only [statsFirstFail, h1, h2] at he
        obtain rfl := Option.some.inj he
        simp only [get_stats, runOp, h1, h2]
      | none =>
        cases h3 : fail (.aggregate .statsTopDirector) with
        | some e3 =>
          simp only [statsFirstFail, h1, h2, h3] at he
          obtain rfl := Option.some.inj he
          simp only [get_stats, runOp, h1, h2, h3]
        | none =>
          simp only [statsFirstFail, h1, h2, h3] at he
          exact Option.noConfusion he
  · intro hn
    cases h1 : fail .countDocuments with
    | some e1 =>
      simp only [statsFirstFail, h1] at hn
      exact Option.noConfusion hn
    | none =>
      cases h2 : fail (.aggregate .statsGenres) with
      | some e2 =>
        simp only [statsFirstFail, h1, h2] at hn
        exact Option.noConfusion hn
      | none =>
        cases h3 : fail (.aggregate .statsTopDirector) with
        | some e3 =>
          simp only [statsFirstFail, h1, h2, h3] at hn
          exact Option.noConfusion hn
        | none =>
          simp only [get_stats, runOp, h1, h2, h3]

/-- C8: every store-touching handler converts a raised exception into the
500 response with body {"error": str(e)} and nothing else: if an
endpoint's first failing store interaction raises e, the handler returns
exactly (err500 e) — no partial result, no escaping exception — and when
no interaction fails the handler answers 200. -/
theorem handlers_convert_exceptions :
    ∀ (fail : StoreOp → Option String) (coll : List Movie)
      (limitArg : Option Int) (sortArg : Option String) (q : String),
    (∀ e, fail (topGenresOp limitArg sortArg) = some e →
      get_top_genres fail coll limitArg sortArg =
        (err500 e, [topGenresOp limitArg sortArg]))
  ∧ (fail (topGenresOp limitArg sortArg) = none →
      (get_top_genres fail coll limitArg sortArg).fst.status = 200)
  ∧ (∀ e, fail (topDirectorsOp limitArg sortArg) = some e →
      get_top_directors_revenue fail coll limitArg sortArg =
        (err500 e, [topDirectorsOp limitArg sortArg]))
  ∧ (fail (topDirectorsOp limitArg sortArg) = none →
      (get_top_directors_revenue fail coll limitArg sortArg).fst.status = 200)
  ∧ (q ≠ "" → ∀ e, searchFirstFail fail coll q = some e →
      (search fail coll (some q)).fst = err500 e)
  ∧ (q ≠ "" → searchFirstFail fail coll q = none →
      (search fail coll (some q)).fst.status = 200)
  ∧ (∀ e, statsFirstFail fail = some e → (get_stats fail coll).fst = err500 e)
  ∧ (statsFirstFail fail = none → (get_stats fail coll).fst.status = 200) := by
  intro fail coll limitArg sortArg q
  exact ⟨(genres_error_conversion fail coll limitArg sortArg).1,
    (genres_error_conversion fail coll limitArg sortArg).2,
    (directors_error_conversion fail coll limitArg sortArg).1,
    (directors_error_conversion fail coll limitArg sortArg).2,
    fun hq => (search_error_conversion fail coll q hq).1,
    fun hq => (search_error_conversion fail coll q hq).2,
    (stats_error_conversion fail coll).1,
    (stats_error_conversion fail coll).2⟩

/-- Witness for handlers_convert_exceptions at concrete inputs. -/
theorem handlers_convert_exceptions_witness :
    get_top_genres (fun _ => some "boom") [] none none =
      (err500 "boom", [topGenresOp none none])
  ∧ (get_stats noFail []).fst.status = 200 :=
  ⟨(handlers_convert_exceptions (fun _ => some "boom") [] none none "x").1 "boom" rfl,
   (handlers_convert_exceptions noFail [] none none "x").2.2.2.2.2.2.2 rfl⟩

/-! ### Handlers never modify the store (C9) -/

/-- C9: every store interaction any handler performs is an
aggregation-pipeline read or a document count (readQuery holds of every
operation in every trace), and replaying a handler's trace against the
collection leaves its contents unchanged, whatever the request arguments
and whatever failures the store injects. -/
theorem handlers_read_only :
    ∀ (fail : StoreOp → Option String) (coll : List Movie)
      (limitArg : Option Int) (sortArg : Option String) (qArg : Option String),
    ((index fail coll).snd.all readQuery = true
      ∧ applyTrace coll (index fail coll).snd = coll)
  ∧ ((get_top_genres fail coll limitArg sortArg).snd.all readQuery = true
      ∧ applyTrace coll (get_top_genres fail coll limitArg sortArg).snd = coll)
  ∧ ((get_top_directors_revenue fail coll limitArg sortArg).snd.all readQuery = true
      ∧ applyTrace coll (get_top_directors_revenue fail coll limitArg sortArg).snd = coll)
  ∧ ((search fail coll qArg).snd.all readQuery = true
      ∧ applyTrace coll (search fail coll qArg).snd = coll)
  ∧ ((get_stats fail coll).snd.all readQuery = true
      ∧ applyTrace coll (get_stats fail coll).snd = coll) := by
  intro fail coll limitArg sortArg qArg
  refine ⟨⟨rfl, rfl⟩, ?_, ?_, ?_, ?_⟩
  · cases h : fail (topGenresOp limitArg sortArg) <;>
      simp only [get_top_genres, runOp, h] <;> exact ⟨rfl, rfl⟩
  · cases h : fail (topDirectorsOp limitArg sortArg) <;>
      simp only [get_top_directors_revenue, runOp, h] <;> exact ⟨rfl, rfl⟩
  · by_cases hq : qArg.getD "" = ""
    · simp only [search, hq, if_pos]
      exact ⟨rfl, rfl⟩
    · cases h1 : fail (.aggregate (.searchGenres (qArg.getD ""))) with
      | some e1 =>
        simp only [search, if_neg hq, runOp, h1]
        exact ⟨rfl, rfl⟩
      | none =>
        cases hg : searchGenresResult coll (qArg.getD "") with
        | error e2 =>
          simp only [search, if_neg hq, runOp, h1, hg]
          exact ⟨rfl, rfl⟩
        | ok rows =>
          cases h3 : fail (.aggregate (.searchDirectors (qArg.getD ""))) with
          | some e3 =>
            simp only [search, if_neg hq, runOp, h1, hg, h3]
            exact ⟨rfl, rfl⟩
          | none =>
            obtain ⟨rows2, hd⟩ := searchResults_ok coll _ rows hg
            simp only [search, if_neg hq, runOp, h1, hg, h3, hd]
            exact ⟨rfl, rfl⟩
  · cases h1 : fail StoreOp.countDocuments with
    | some e1 =>
      simp only [get_stats, runOp, h1]
      exact ⟨rfl, rfl⟩
    | none =>
      cases h2 : fail (.aggregate .statsGenres) with
      | some e2 =>
        simp only [get_stats, runOp, h1, h2]
        exact ⟨rfl, rfl⟩
      | none =>
        cases h3 : fail (.aggregate .statsTopDirector) with
        | some e3 =>
          simp only [get_stats, runOp, h1, h2, h3]
          exact ⟨rfl, rfl⟩
        | none =>
          simp only [get_stats, runOp, h1, h2, h3]
          exact ⟨rfl, rfl⟩

/-! ### Regex semantics of the search endpoint (C10) -/

/-- Case-insensitive comparison of the first characters of the two lists:
does the first list, character by character, open the second one. -/
def beginsWithCI : List Char → List Char → Bool
  | [], _ => true
  | _ :: _, [] => false
  | a :: as, b :: bs => (a.toLower = b.toLower) && beginsWithCI as bs

/-- Case-insensitive literal substring test. -/
def substrCI : List Char → List Char → Bool
  | q, [] => q.isEmpty
  | q, c :: cs => beginsWithCI q (c :: cs) || substrCI q cs

/-- Follows the alternative reading C10 refutes: the genre search treating
q as a literal case-insensitive substring of the genre name instead of a
regular expression, with the rest of the pipeline unchanged. -/
def searchLiteralResult (coll : List Movie) (q : String) : List (String × Int) :=
  (sortStage (-1) Prod.snd
    (groupCount ((genreRows coll).filter fun s => substrCI q.data s.data))).take 10

/-- One movie whose single genre is named "X", on which the regex query
"." matches while literal substring matching does not. -/
def demoSearch : List Movie :=
  [⟨[⟨"X"⟩], [], 0⟩]

/-- C10: the search endpoint passes q to the store as a case-insensitive
regex, not a literal substring: the metacharacter query "." matches the
genre "X" (and lowercase "x" matches it too), while a literal substring
search would match nothing; and the invalid regex "(" is rejected by the
store at execution time, which the handler surfaces as the generic 500
error response, not as a 400 validation error. -/
theorem search_regex_not_substring :
    (search noFail demoSearch (some ".")).fst =
      ⟨200, .jobj [("genres", genresBody [("X", 1)]), ("directors", directorsBody [])]⟩
  ∧ searchGenresResult demoSearch "." = .ok [("X", 1)]
  ∧ searchLiteralResult demoSearch "." = []
  ∧ searchGenresResult demoSearch "x" = .ok [("X", 1)]
  ∧ (search noFail demoSearch (some "(")).fst.status = 500
  ∧ (search noFail demoSearch (some "(")).fst.status ≠ 400
  ∧ (search noFail demoSearch (some "(")).fst = err500 "missing closing parenthesis" :=
  ⟨rfl, rfl, by decide, rfl, rfl, by decide, rfl⟩
